import Mathlib

set_option maxRecDepth 100000

/-!
Verification development for the photo metadata extraction pipeline of
`photo_processor.py` (Worksite Appendix Creator).

The Python module is shallowly embedded below.  Dynamic Python values that
flow through the metadata dictionaries are modelled by `PyVal`; the four
adapter outputs (ExifTool JSON, macOS `mdls`, AAE sidecar, `exifread` tags)
are modelled as association lists, matching Python `dict` iteration order.
Floating point arithmetic of the source is modelled over `ℚ` (exact); the
numeric values appearing in metadata are small decimals for which Python
float arithmetic and printing agree with the rational model.

External effects (subprocess calls, `Image.open`, the filesystem) are
modelled as inputs carried by a `PhotoEnv` record: each field holds the
outcome the corresponding library/OS call would produce for the photo under
consideration.  Exceptions are modelled explicitly: `extract_caption` can
raise a `KeyError` (faithfully derived from the metadata it is given), and
`PhotoEnv.abort` injects an unexpected exception at the start of a chosen
stage of the record builder, modelling Python's ability to raise anywhere
inside the builder's `try` block.
-/

/-- A Python value stored in a metadata mapping.  `pnum` covers `int` and
`float` (exiftool is invoked with `-n`, so numbers arrive as JSON numbers),
`plist` covers lists of numbers (degree/minute/second triples, `exifread`
rational lists), `pnone` covers JSON `null` / `None` and any other type for
which the source's `isinstance` checks fail. -/
inductive PyVal where
  | pstr (s : String)
  | pnum (q : ℚ)
  | plist (l : List ℚ)
  | pnone
deriving DecidableEq, Repr

/-- The `.values` payload of an `exifread` `IfdTag`: either a list of
numbers (Ratios/ints) or a string. -/
inductive TagValue where
  | nums (l : List ℚ)
  | str (s : String)
deriving DecidableEq, Repr

/-- An `exifread` tag object: `values` is the parsed payload, `printable`
is the string `str(tag)` returns. -/
structure IfdTag where
  values : TagValue
  printable : String
deriving DecidableEq, Repr

/-- ExifTool JSON object (Python dict) as an association list in insertion
order; Python dict keys are unique. -/
abbrev ExifMap := List (String × PyVal)

/-- `mdls` output mapping (values are always strings, built by
`get_macos_metadata`). -/
abbrev MdlsMap := List (String × String)

/-- `exifread` tag dictionary. -/
abbrev TagMap := List (String × IfdTag)

/-- The two regex captures `extract_caption` takes from a non-empty AAE
sidecar text: group 1 of `<key>adjustmentDescription</key>\s*<string>([^<]+)
</string>` and group 1 of `<string name="description">([^<]+)</string>`.
The raw text search itself is abstracted: a `some` value is the captured
group of a successful `re.search`, `none` means the pattern did not match. -/
structure AaeCaptures where
  adj : Option String
  desc : Option String
deriving DecidableEq, Repr

/-- The stages of `extract_metadata_from_photo`'s `try` block, used to
inject an unexpected exception at the start of a stage. -/
inductive Stage where
  | heic | dims | adapters | caption | gps | orient | fallback
deriving DecidableEq, Repr

/-- The `photo_data` dictionary built by `extract_metadata_from_photo`. -/
structure PhotoData where
  path : String
  filename : String
  caption : Option String
  latitude : Option ℚ
  longitude : Option ℚ
  orientation : Option ℚ
  temp_file : Option String
  width : Option Nat
  height : Option Nat
  error : Option String
deriving DecidableEq, Repr

/-- Outcome of the HEIC-to-JPEG conversion attempt (the inner `try` of the
HEIC branch): success yields raw pixel dimensions and the temp-file path;
failure yields the dimensions read before the failing call (if any) and the
exception text. -/
inductive HeicOutcome where
  | ok (w h : Nat) (temp : String)
  | err (dims : Option (Nat × Nat)) (msg : String)
deriving DecidableEq, Repr

/-- The external world observed while processing one photo: outcomes of all
library/OS calls the builder makes.  `exiftoolJson` is the first object of
ExifTool's parsed JSON output (`none` when the tool is missing, errors out,
or prints nothing).  `abort` injects an unexpected exception at the start
of the given stage, with text `abortMsg`. -/
structure PhotoEnv where
  heicSupport : Bool
  heic : HeicOutcome
  procExists : Bool
  openDims : Except String (Nat × Nat)
  exiftoolJson : Option ExifMap
  mdls : Option MdlsMap
  aae : Option AaeCaptures
  tags : Option TagMap
  abort : Option Stage
  abortMsg : String

/-! ### String and number helpers (Python built-ins used by the source) -/

/-- Value of a list of decimal digit characters. -/
def digitsToNat (cs : List Char) : Nat :=
  cs.foldl (fun a c => a * 10 + (c.toNat - 48)) 0

/-- `os.path.basename` for POSIX paths: the part after the last slash. -/
def pyBasename (p : String) : String :=
  ((p.splitOn "/").getLastD p)

/-- The stem of `os.path.splitext`: drop the extension starting at the last
dot, unless every character before that dot is itself a dot (CPython
`genericpath._splitext` for a path with no directory separators). -/
def pySplitextBase (p : String) : String :=
  let cs := p.toList
  match (List.range cs.length).filter (fun i => cs.getD i ' ' = '.') with
  | [] => p
  | is =>
    let sep := is.getLastD 0
    if (cs.take sep).all (fun c => c = '.') then p
    else String.mk (cs.take sep)

/-- Python `str.split()` with no argument: split on whitespace runs,
discarding empty pieces. -/
def pySplitWs (s : String) : List String :=
  (s.split Char.isWhitespace).filter (fun t => t ≠ "")

/-- Python `float(...)` on the plain decimal strings arising in this code:
optional sign, then digits with at most one dot (at least one digit), then
an optional exponent part.  `inf`/`nan`/underscore forms are out of scope
(they never parse to an in-range coordinate and are not produced by the
adapters). Returns `none` where Python raises `ValueError`. -/
def pyFloat? (s : String) : Option ℚ :=
  let cs := s.toList
  let (sign, cs) :=
    match cs with
    | '-' :: t => ((-1 : ℚ), t)
    | '+' :: t => ((1 : ℚ), t)
    | t => ((1 : ℚ), t)
  let intPart := cs.takeWhile Char.isDigit
  let rest1 := cs.dropWhile Char.isDigit
  let (fracPart, rest2) :=
    match rest1 with
    | '.' :: t => (t.takeWhile Char.isDigit, t.dropWhile Char.isDigit)
    | t => ([], t)
  if intPart.isEmpty ∧ fracPart.isEmpty then none
  else if rest1 ≠ [] ∧ rest1.headD ' ' ≠ '.' ∧ rest1.headD ' ' ≠ 'e' ∧ rest1.headD ' ' ≠ 'E' then none
  else
    let mant : ℚ := sign * ((digitsToNat intPart : ℚ) +
      (digitsToNat fracPart : ℚ) / ((10 : ℚ) ^ fracPart.length))
    match rest2 with
    | [] => some mant
    | 'e' :: t | 'E' :: t =>
      let (eneg, t) :=
        match t with
        | '-' :: t2 => (true, t2)
        | '+' :: t2 => (false, t2)
        | t2 => (false, t2)
      let eDigits := t.takeWhile Char.isDigit
      if eDigits.isEmpty ∨ (t.dropWhile Char.isDigit) ≠ [] then none
      else if eneg then some (mant / ((10 : ℚ) ^ digitsToNat eDigits))
      else some (mant * ((10 : ℚ) ^ digitsToNat eDigits))
    | _ => none

/-- The leading-numeric-portion regex of `extract_orientation_data`:
`^[+-]?(\d+(\.\d*)?|\.\d+)` — parse the matched portion as a rational
(`float` of the matched text).  `none` when the regex does not match. -/
def leadingNum (s : String) : Option ℚ :=
  let cs := s.toList
  let (sign, cs) :=
    match cs with
    | '-' :: t => ((-1 : ℚ), t)
    | '+' :: t => ((1 : ℚ), t)
    | t => ((1 : ℚ), t)
  let intPart := cs.takeWhile Char.isDigit
  let rest := cs.dropWhile Char.isDigit
  if intPart.isEmpty then
    match rest with
    | '.' :: t =>
      let fracPart := t.takeWhile Char.isDigit
      if fracPart.isEmpty then none
      else some (sign * (digitsToNat fracPart : ℚ) / ((10 : ℚ) ^ fracPart.length))
    | _ => none
  else
    match rest with
    | '.' :: t =>
      let fracPart := t.takeWhile Char.isDigit
      some (sign * ((digitsToNat intPart : ℚ) +
        (digitsToNat fracPart : ℚ) / ((10 : ℚ) ^ fracPart.length)))
    | _ => some (sign * (digitsToNat intPart : ℚ))

/-! ### `get_metadata_with_exiftool`: JSON cleaning (line 66) -/

/-- The predicate of the dict comprehension in `get_metadata_with_exiftool`:
`isinstance(v, str) and v.lower() in ('null', '', 'none')`. -/
def isBadStr : PyVal → Bool
  | .pstr s => s.toLower = "null" || s.toLower = "" || s.toLower = "none"
  | _ => false

/-- `cleaned_metadata = {k: v for k, v in metadata_list[0].items() if not
(isinstance(v, str) and v.lower() in ('null', '', 'none'))}` —
the cleaning `get_metadata_with_exiftool` applies to ExifTool's JSON
before returning it. -/
def cleanExiftoolJson (m : ExifMap) : ExifMap :=
  m.filter (fun kv => !isBadStr kv.2)

/-! ### `cleanup_temp_files` -/

/-- The filesystem, abstracted as the set of existing paths. -/
abbrev FileSys := String → Bool

/-- `os.unlink`: remove a path. -/
def fsUnlink (fs : FileSys) (p : String) : FileSys :=
  fun q => if q = p then false else fs q

/-- One iteration of the loop in `cleanup_temp_files`:
`if temp_file_path and os.path.exists(temp_file_path): os.unlink(...)`
(the `except` around `os.unlink` only logs; deletion of an existing path
succeeds in this model). -/
def cleanupStep (fs : FileSys) (r : PhotoData) : FileSys :=
  match r.temp_file with
  | some p => if p ≠ "" ∧ fs p = true then fsUnlink fs p else fs
  | none => fs

/-- `cleanup_temp_files(photo_data_list)` acting on the filesystem (the
`if not photo_data_list: return` early exit coincides with folding over
the empty list). -/
def cleanup_temp_files (l : List PhotoData) (fs : FileSys) : FileSys :=
  l.foldl cleanupStep fs

/-! ### `extract_caption` -/

/-- The primary ExifTool description fields, in the source's order. -/
def primaryDescriptionFields : List String :=
  ["IFD0:ImageDescription", "EXIF:ImageDescription", "XMP:Description",
   "IPTC:Caption-Abstract", "Apple:Description", "QuickTime:Description",
   "QuickTime:Title"]

/-- The secondary ExifTool fields, in the source's order. -/
def secondaryRelatedFields : List String :=
  ["XMP:Title", "IPTC:ObjectName", "XMP:Headline", "EXIF:UserComment",
   "EXIF:XPTitle", "EXIF:XPComment", "EXIF:XPSubject", "RIFF:UserComment",
   "Comment"]

/-- The `mdls` caption fields, in the source's priority order. -/
def mdlsFieldsPriority : List String :=
  ["kMDItemDescription", "kMDItemTitle", "kMDItemHeadline",
   "kMDItemSubject", "kMDItemComment"]

/-- The `EXIF:UserComment` null-separator handling of `extract_caption`
(lines 137-141): split the stripped value on NUL, take the last segment
stripped; if that is empty, take the stripped second-to-last segment
(guarded by `len(parts) > 1`). -/
def userCommentValue (v : String) : String :=
  let parts := v.splitOn "\x00"
  let lastSeg := (parts.getLastD "").trim
  if lastSeg ≠ "" then lastSeg
  else if parts.length > 1 then (parts.getD (parts.length - 2) "").trim
  else ""

/-- The primary-field loop of `extract_caption` (lines 102-110).  The
condition `field.lower() in map(str.lower, md.keys())` is evaluated first;
when it holds but the exact key is absent, `md[field]` raises `KeyError`
(modelled as `Except.error field`). -/
def primaryLoop : List String → ExifMap → Except String (Option String)
  | [], _ => .ok none
  | f :: rest, m =>
    if (m.map (fun kv => kv.1.toLower)).contains f.toLower then
      match List.lookup f m with
      | none => .error f
      | some (.pstr v) =>
        if v.trim ≠ "" then .ok (some v.trim) else primaryLoop rest m
      | some _ => primaryLoop rest m
    else primaryLoop rest m

/-- The secondary-field loop of `extract_caption` (lines 128-146):
case-insensitive search for the field among the dict's keys (first key in
insertion order), string check, strip, UserComment NUL handling, first
non-empty value wins. -/
def secondaryLoop : List String → ExifMap → Option String
  | [], _ => none
  | f :: rest, m =>
    match m.find? (fun kv => kv.1.toLower = f.toLower) with
    | some kv =>
      if kv.1 ≠ "" then
        match kv.2 with
        | .pstr raw =>
          let v := raw.trim
          let v :=
            if kv.1.toUpper = "EXIF:USERCOMMENT" ∧ v.contains '\x00' then
              userCommentValue v
            else v
          if v ≠ "" then some v else secondaryLoop rest m
        | _ => secondaryLoop rest m
      else secondaryLoop rest m
    | none => secondaryLoop rest m

/-- The `mdls` loop of `extract_caption` (lines 152-160). -/
def mdlsLoop : List String → MdlsMap → Option String
  | [], _ => none
  | f :: rest, m =>
    match List.lookup f m with
    | some v =>
      if v ≠ "" ∧ v ≠ "(null)" then
        if v.trim ≠ "" then some v.trim else mdlsLoop rest m
      else mdlsLoop rest m
    | none => mdlsLoop rest m

/-- The `exifread` branch of `extract_caption` (lines 166-176): only the
`Image ImageDescription` tag, `str(tag)` stripped, NUL markers cleaned by
taking the last NUL-separated piece. -/
def exifreadCaption (ts : TagMap) : Option String :=
  match List.lookup "Image ImageDescription" ts with
  | some tag =>
    let v := tag.printable.trim
    let v :=
      if v.contains '\x00' then ((v.splitOn "\x00").getLastD "").trim else v
    if v ≠ "" then some v else none
  | none => none

/-- The AAE-sidecar branch of `extract_caption` (lines 184-199): the
`adjustmentDescription` capture first, then the `description` capture. -/
def aaeCaption (a : AaeCaptures) : Option String :=
  match a.adj with
  | some v =>
    if v.trim ≠ "" then some v.trim else
      match a.desc with
      | some w => if w.trim ≠ "" then some w.trim else none
      | none => none
  | none =>
    match a.desc with
    | some w => if w.trim ≠ "" then some w.trim else none
    | none => none

/-- `extract_caption(filename, tags, exiftool_metadata, mdls_metadata,
aae_data)`.  Returns `.error field` when the primary-field loop raises
`KeyError(field)`; otherwise `.ok` with the caption found, or `.ok none`
when every source yields nothing (the caller then synthesizes a
fallback).  The `filename` parameter is only used for logging in the
source. -/
def extract_caption (_filename : String) (tags : Option TagMap)
    (exiftool : ExifMap) (mdls : Option MdlsMap) (aae : Option AaeCaptures) :
    Except String (Option String) :=
  let fromExiftool : Except String (Option String) :=
    if exiftool ≠ [] then
      match primaryLoop primaryDescriptionFields exiftool with
      | .error k => .error k
      | .ok (some c) => .ok (some c)
      | .ok none => .ok (secondaryLoop secondaryRelatedFields exiftool)
    else .ok none
  match fromExiftool with
  | .error k => .error k
  | .ok (some c) => .ok (some c)
  | .ok none =>
    let fromMdls : Option String :=
      match mdls with
      | some m => if m ≠ [] then mdlsLoop mdlsFieldsPriority m else none
      | none => none
    match fromMdls with
    | some c => .ok (some c)
    | none =>
      let fromTags : Option String :=
        match tags with
        | some ts => if ts ≠ [] then exifreadCaption ts else none
        | none => none
      match fromTags with
      | some c => .ok (some c)
      | none =>
        match aae with
        | some a =>
          match aaeCaption a with
          | some c => .ok (some c)
          | none => .ok none
        | none => .ok none

/-! ### Fallback caption synthesis (builder lines 419-432) -/

/-- Camera-generated filename heads stripped by the fallback-caption code,
in the order of the regex alternation
`^(IMG|DSC|VID|PXL|Screenshot|Screen Shot)[\s_-]*` (case-insensitive). -/
def cameraHeads : List String :=
  ["IMG", "DSC", "VID", "PXL", "Screenshot", "Screen Shot"]

/-- A character of the regex class `[\s_-]`. -/
def isSepChar (c : Char) : Bool :=
  c.isWhitespace || c = '_' || c = '-'

/-- `re.sub(r'^(IMG|...)[\s_-]*', '', name, flags=re.IGNORECASE)`: if the
name starts (case-insensitively) with one of the camera heads, drop it and
the following run of separator characters. -/
def dropCameraHead (name : String) : String :=
  match cameraHeads.find? (fun h => name.toLower.startsWith h.toLower) with
  | some h =>
    String.mk (((name.toList).drop h.length).dropWhile isSepChar)
  | none => name

/-- Collapse runs of the regex class `[_ -]` into a single space
(`re.sub(r'[_ -]+', ' ', ...)`). -/
def collapseSeps (s : String) : String :=
  String.mk (collapseSepsGo false s.toList)
where
  isUS : Char → Bool := fun c => c = '_' || c = ' ' || c = '-'
  /-- `inRun` records whether the previous character belonged to a
  separator run (already replaced by one space). -/
  collapseSepsGo : Bool → List Char → List Char
    | _, [] => []
    | inRun, c :: t =>
      if isUS c then
        if inRun then collapseSepsGo true t else ' ' :: collapseSepsGo true t
      else c :: collapseSepsGo false t

/-- Take exactly `k` decimal digits from the front of `cs`; return their
value and the remainder. -/
def grabDigits : Nat → List Char → Option (Nat × List Char)
  | 0, cs => some (0, cs)
  | _ + 1, [] => none
  | k + 1, c :: t =>
    if c.isDigit then
      match grabDigits k t with
      | some (n, r) => some ((c.toNat - 48) * 10 ^ k + n, r)
      | none => none
    else none

/-- Match `(\d{4})(\d{2})(\d{2})[\s_-]*(\d{2})(\d{2})(\d{2})` anchored at
the front of `cs` (the separator class is matched greedily; since digits
are not separators no backtracking can succeed where this fails). -/
def dtMatchAt (cs : List Char) : Option (Nat × Nat × Nat × Nat × Nat × Nat) :=
  match grabDigits 4 cs with
  | none => none
  | some (y, r) =>
    match grabDigits 2 r with
    | none => none
    | some (mo, r) =>
      match grabDigits 2 r with
      | none => none
      | some (d, r) =>
        let r := r.dropWhile isSepChar
        match grabDigits 2 r with
        | none => none
        | some (h, r) =>
          match grabDigits 2 r with
          | none => none
          | some (mi, r) =>
            match grabDigits 2 r with
            | none => none
            | some (sec, _) => some (y, mo, d, h, mi, sec)

/-- `re.search` for the date/time pattern: leftmost match wins. -/
def dtSearch : List Char → Option (Nat × Nat × Nat × Nat × Nat × Nat)
  | [] => dtMatchAt []
  | c :: t =>
    match dtMatchAt (c :: t) with
    | some g => some g
    | none => dtSearch t

/-- Gregorian leap year (as `datetime` validates it). -/
def isLeap (y : Nat) : Bool :=
  y % 4 = 0 && (y % 100 ≠ 0 || y % 400 = 0)

/-- Days in a month, per `datetime`. -/
def daysInMonth (y mo : Nat) : Nat :=
  if mo = 2 then (if isLeap y then 29 else 28)
  else if mo = 4 ∨ mo = 6 ∨ mo = 9 ∨ mo = 11 then 30
  else 31

/-- `datetime(y, mo, d, h, mi, s)` succeeds (no `ValueError`). -/
def validDateTime (y mo d h mi s : Nat) : Bool :=
  1 ≤ y && y ≤ 9999 && 1 ≤ mo && mo ≤ 12 && 1 ≤ d && d ≤ daysInMonth y mo
    && h ≤ 23 && mi ≤ 59 && s ≤ 59

/-- Zero-pad to two digits (`%m`, `%d`, `%H`, `%M`). -/
def pad2 (n : Nat) : String :=
  if n < 10 then "0" ++ toString n else toString n

/-- Zero-pad to four digits (`%Y`; the regex always supplies a four-digit
year, so values below 1000 — where platforms differ on padding — only
arise from leading zeros in the filename). -/
def pad4 (n : Nat) : String :=
  if n < 10 then "000" ++ toString n
  else if n < 100 then "00" ++ toString n
  else if n < 1000 then "0" ++ toString n
  else toString n

/-- `f"Photo from {dt_obj.strftime('%Y-%m-%d %H:%M')}"`. -/
def formatDt (y mo d h mi : Nat) : String :=
  "Photo from " ++ pad4 y ++ "-" ++ pad2 mo ++ "-" ++ pad2 d ++ " "
    ++ pad2 h ++ ":" ++ pad2 mi

/-- The fallback-caption synthesis of `extract_metadata_from_photo`
(lines 421-431), run when no metadata source yielded a caption. -/
def fallbackCaption (filename : String) : String :=
  let filenameNoExt := pySplitextBase filename
  let cleanName := (collapseSeps (dropCameraHead filenameNoExt)).trim
  match dtSearch cleanName.toList with
  | some (y, mo, d, h, mi, sec) =>
    if validDateTime y mo d h mi sec then formatDt y mo d h mi
    else if cleanName ≠ "" then cleanName else filenameNoExt
  | none => if cleanName ≠ "" then cleanName else filenameNoExt

/-! ### `convert_gps_to_decimal` and `extract_gps_data` -/

/-- Step one of `convert_gps_to_decimal`: raw coordinate value to a decimal
number (before reference-sign handling and range checks).  String inputs are
first cleaned with `re.sub(r'[^\d\.\s-]', '', ...)` and split on whitespace;
`float` failures (caught by the surrounding `except`) yield `none`. -/
def rawGpsDecimal : PyVal → Option ℚ
  | .plist [d, m, s] => some (d + m / 60 + s / 3600)
  | .plist _ => none
  | .pnum q => some q
  | .pstr s =>
    let cleaned := String.mk (s.toList.filter
      (fun c => c.isDigit || c = '.' || c.isWhitespace || c = '-'))
    match pySplitWs cleaned.trim with
    | [a, b, c] => do
      let d ← pyFloat? a
      let m ← pyFloat? b
      let sec ← pyFloat? c
      pure (d + m / 60 + sec / 3600)
    | [a, b] => do
      let d ← pyFloat? a
      let m ← pyFloat? b
      pure (d + m / 60)
    | [a] => pyFloat? a
    | _ => none
  | .pnone => none

/-- Python truthiness plus `isinstance(gps_ref, str)`: a non-empty string. -/
def refTruthyStr : Option PyVal → Bool
  | some (.pstr s) => s ≠ ""
  | _ => false

/-- The string of a string-valued reference (meaningful when
`refTruthyStr` holds). -/
def refStrOf : Option PyVal → String
  | some (.pstr s) => s
  | _ => ""

/-- `gps_ref and gps_ref in ls`: the *raw* reference string compared
against the list (no upper-casing or stripping here — the source only
normalizes for the sign flip, not for these membership tests). -/
def refRawIn (r : Option PyVal) (ls : List String) : Bool :=
  match r with
  | some (.pstr s) => ls.contains s
  | _ => false

/-- `convert_gps_to_decimal(gps_coords, gps_ref)` (lines 211-251). -/
def convert_gps_to_decimal (coords : PyVal) (ref : Option PyVal) : Option ℚ :=
  match rawGpsDecimal coords with
  | none => none
  | some dec0 =>
    let dec :=
      if refTruthyStr ref ∧ 0 ≤ dec0 ∧
          ((refStrOf ref).toUpper.trim = "S" ∨ (refStrOf ref).toUpper.trim = "W")
      then -dec0 else dec0
    let isLat := refRawIn ref ["N", "S"] || |dec| ≤ 90
    let isLon := refRawIn ref ["E", "W"] || |dec| ≤ 180
    if isLat ∧ ¬(-90 ≤ dec ∧ dec ≤ 90) then none
    else if isLon ∧ ¬(-180 ≤ dec ∧ dec ≤ 180) then none
    else some dec

/-- The four ExifTool GPS key sets of `extract_gps_data`, in order:
latitude key, longitude key, optional reference keys. -/
def gpsKeySets : List (String × String × Option String × Option String) :=
  [("EXIF:GPSLatitude", "EXIF:GPSLongitude",
      some "EXIF:GPSLatitudeRef", some "EXIF:GPSLongitudeRef"),
   ("Composite:GPSLatitude", "Composite:GPSLongitude", none, none),
   ("XMP:GPSLatitude", "XMP:GPSLongitude", none, none),
   ("GPS:Latitude", "GPS:Longitude",
      some "GPS:LatitudeRef", some "GPS:LongitudeRef")]

/-- The ExifTool key-set loop of `extract_gps_data` (lines 262-268): the
first set whose two coordinates are present and both convert wins; a
partial conversion resets both (`latitude, longitude = None, None`) and
moves to the next set. -/
def gpsSetsLoop :
    List (String × String × Option String × Option String) → ExifMap →
    Option (ℚ × ℚ)
  | [], _ => none
  | (lk, lok, lrk, lork) :: rest, m =>
    match List.lookup lk m, List.lookup lok m with
    | some lv, some lov =>
      let lr := lrk.bind (fun k => List.lookup k m)
      let lor := lork.bind (fun k => List.lookup k m)
      match convert_gps_to_decimal lv lr, convert_gps_to_decimal lov lor with
      | some la, some lo => some (la, lo)
      | _, _ => gpsSetsLoop rest m
    | _, _ => gpsSetsLoop rest m

/-- The `Composite:GPSPosition` branch (lines 269-276): a comma-separated
string; splitting must yield exactly two pieces (otherwise the unpacking
raises and is caught); both pieces must convert. -/
def gpsComposite (m : ExifMap) : Option (ℚ × ℚ) :=
  match List.lookup "Composite:GPSPosition" m with
  | some (.pstr s) =>
    if s.contains ',' then
      match s.splitOn "," with
      | [a, b] =>
        match convert_gps_to_decimal (.pstr a.trim) none,
              convert_gps_to_decimal (.pstr b.trim) none with
        | some la, some lo => some (la, lo)
        | _, _ => none
      | _ => none
    else none
  | _ => none

/-- The whole ExifTool block of `extract_gps_data`: key sets first, then
the composite position string. -/
def gpsFromExiftool (m : ExifMap) : Option (ℚ × ℚ) :=
  match gpsSetsLoop gpsKeySets m with
  | some p => some p
  | none => gpsComposite m

/-- The `mdls` block of `extract_gps_data` (lines 277-284): both fields
present and not `"(null)"`, both `float(...)` parses succeed, and the
explicit range check passes; otherwise both are reset. -/
def gpsFromMdls (m : MdlsMap) : Option (ℚ × ℚ) :=
  match List.lookup "kMDItemLatitude" m, List.lookup "kMDItemLongitude" m with
  | some la, some lo =>
    if la ≠ "(null)" ∧ lo ≠ "(null)" then
      match pyFloat? la, pyFloat? lo with
      | some qa, some qb =>
        if -90 ≤ qa ∧ qa ≤ 90 ∧ -180 ≤ qb ∧ qb ≤ 180 then some (qa, qb)
        else none
      | _, _ => none
    else none
  | _, _ => none

/-- `str(tag_value)` for a reference tag's `.values` (a string for real
reference tags; numeric lists print in bracketed repr form, which never
equals a reference letter). -/
def pyStrTV : TagValue → String
  | .str s => s
  | .nums l => "[" ++ String.intercalate ", " (l.map toString) ++ "]"

/-- An `exifread` `.values` payload passed on to
`convert_gps_to_decimal`. -/
def pyValOfTV : TagValue → PyVal
  | .nums l => .plist l
  | .str s => .pstr s

/-- The `exifread` block of `extract_gps_data` (lines 285-295): the GPS
latitude/longitude tags with their reference tags (defaulting to `N`/`E`
when absent); both conversions must succeed, otherwise both reset. -/
def gpsFromTags (ts : TagMap) : Option (ℚ × ℚ) :=
  match List.lookup "GPS GPSLatitude" ts, List.lookup "GPS GPSLongitude" ts with
  | some latT, some lonT =>
    let latRef :=
      match List.lookup "GPS GPSLatitudeRef" ts with
      | some t => (pyStrTV t.values).trim
      | none => "N"
    let lonRef :=
      match List.lookup "GPS GPSLongitudeRef" ts with
      | some t => (pyStrTV t.values).trim
      | none => "E"
    match convert_gps_to_decimal (pyValOfTV latT.values) (some (.pstr latRef)),
          convert_gps_to_decimal (pyValOfTV lonT.values) (some (.pstr lonRef)) with
    | some la, some lo => some (la, lo)
    | _, _ => none
  | _, _ => none

/-- `extract_gps_data(tags, exiftool_metadata, mdls_metadata, file_path)`
(lines 253-296).  Each source block either returns a complete pair or
falls through with both components reset to `None`; the trailing
`return None, None` is the final fall-through. -/
def extract_gps_data (tags : Option TagMap) (exiftool : ExifMap)
    (mdls : Option MdlsMap) (_filePath : String) : Option ℚ × Option ℚ :=
  match (if exiftool ≠ [] then gpsFromExiftool exiftool else none) with
  | some (la, lo) => (some la, some lo)
  | none =>
    match
      (match mdls with
       | some m => if m ≠ [] then gpsFromMdls m else none
       | none => none) with
    | some (la, lo) => (some la, some lo)
    | none =>
      match
        (match tags with
         | some ts => if ts ≠ [] then gpsFromTags ts else none
         | none => none) with
      | some (la, lo) => (some la, some lo)
      | none => (none, none)

/-! ### `extract_orientation_data` -/

/-- The ExifTool orientation fields, in the source's order. -/
def orientationFields : List String :=
  ["Composite:GPSImgDirection", "EXIF:GPSImgDirection", "XMP:GPSImgDirection",
   "GPS:ImgDirection", "Composite:GPSDestBearing", "EXIF:GPSDestBearing",
   "XMP:GPSDestBearing", "GPS:GPSDestBearing", "QuickTime:CameraAngle",
   "Track1:CameraAngle", "Track2:CameraAngle"]

/-- The `exifread` orientation tags, in the source's order. -/
def orientationTags : List String :=
  ["GPS GPSImgDirection", "GPS GPSDestBearing"]

/-- `re.match(r"^[+-]?(\d+(\.\d*)?|\.\d+)", str(value))` then `float` of
the match: for a number, `str` prints it plainly (coordinate-sized values
never use exponent form) and the regex recovers it; for a string the
leading numeric portion is taken; a list prints as `[...]`, which has no
leading numeric portion; `None` values are skipped by the
`is not None` guard. -/
def orientCandidate : PyVal → Option ℚ
  | .pnum q => some q
  | .pstr s => leadingNum s
  | .plist _ => none
  | .pnone => none

/-- The ExifTool field loop of `extract_orientation_data` (lines 305-314):
first candidate in `[0, 360]` wins; out-of-range candidates reset
`orientation` to `None` and the loop continues. -/
def orientLoop : List String → ExifMap → Option ℚ
  | [], _ => none
  | f :: rest, m =>
    match List.lookup f m with
    | some v =>
      match orientCandidate v with
      | some q => if 0 ≤ q ∧ q ≤ 360 then some q else orientLoop rest m
      | none => orientLoop rest m
    | none => orientLoop rest m

/-- `float(value)` on an `exifread` orientation tag payload: a list takes
`value[0]` (an empty list raises `IndexError`, caught → continue), a
string goes through `float` parsing. -/
def tagOrientCandidate : TagValue → Option ℚ
  | .nums l => l.head?
  | .str s => pyFloat? s

/-- The `exifread` tag loop of `extract_orientation_data`
(lines 317-325). -/
def tagOrientLoop : List String → TagMap → Option ℚ
  | [], _ => none
  | f :: rest, ts =>
    match List.lookup f ts with
    | some tag =>
      match tagOrientCandidate tag.values with
      | some q => if 0 ≤ q ∧ q ≤ 360 then some q else tagOrientLoop rest ts
      | none => tagOrientLoop rest ts
    | none => tagOrientLoop rest ts

/-- `extract_orientation_data(tags, exiftool_metadata, mdls_metadata)`
(lines 298-326).  The `mdls_metadata` parameter is never read by the
source body. -/
def extract_orientation_data (tags : Option TagMap) (exiftool : ExifMap)
    (_mdls : Option MdlsMap) : Option ℚ :=
  match (if exiftool ≠ [] then orientLoop orientationFields exiftool else none) with
  | some v => some v
  | none =>
    match tags with
    | some ts => if ts ≠ [] then tagOrientLoop orientationTags ts else none
    | none => none

/-! ### `extract_metadata_from_photo` (Photo Record Builder) -/

/-- The initial `photo_data` dictionary (lines 378-379), built before the
`try` block. -/
def initPhotoData (path : String) : PhotoData :=
  { path := path, filename := pyBasename path, caption := none,
    latitude := none, longitude := none, orientation := none,
    temp_file := none, width := none, height := none, error := none }

/-- The `except Exception` handler at the builder boundary (lines 433-435):
record the exception text into `error` (overwriting any earlier stage
error) and return the record as computed so far. -/
def fatalWrap (s : PhotoData) (msg : String) : PhotoData :=
  { s with error := some ("Fatal processing error: " ++ msg) }

/-- The `exifread` tags actually read by the builder: `exifread_tags`
stays `None` unless `os.path.exists(processing_path)` (line 409). -/
def builderTags (env : PhotoEnv) : Option TagMap :=
  if env.procExists then env.tags else none

/-- The ExifTool metadata the builder passes to the resolvers: the cleaned
first JSON object, or the empty dict when the tool is unavailable or
failed (`get_metadata_with_exiftool` returns `{}` in every failure
case). -/
def builderExiftool (env : PhotoEnv) : ExifMap :=
  (env.exiftoolJson.map cleanExiftoolJson).getD []

/-- The HEIC conversion branch of the builder (lines 382-395): runs when
the path ends in `.heic` (case-insensitively) and HEIC support is
available; its inner `try` catches conversion failures and records them in
`error` while the processing path falls back to the original file. -/
def heicStage (env : PhotoEnv) (path : String) (s : PhotoData) : PhotoData :=
  if path.toLower.endsWith ".heic" && env.heicSupport then
    match env.heic with
    | .ok w h t =>
      { s with width := some w, height := some h, temp_file := some t }
    | .err dims msg =>
      { s with width := dims.map Prod.fst, height := dims.map Prod.snd,
               error := some ("HEIC processing failed: " ++ msg) }
  else s

/-- The dimension-read branch of the builder (lines 396-404): only when no
dimensions were obtained yet and the processing path exists; an open
failure is recorded only if no earlier error exists. -/
def dimsStage (env : PhotoEnv) (s : PhotoData) : PhotoData :=
  if s.width.isNone && env.procExists then
    match env.openDims with
    | .ok (w, h) => { s with width := some w, height := some h }
    | .error msg =>
      if s.error = none then { s with error := some ("Image open failed: " ++ msg) }
      else s
  else s

/-- The builder stages after caption resolution: GPS resolution (line 417),
heading resolution (line 418) and fallback-caption synthesis
(lines 419-432), each preceded by its exception-injection guard. -/
def laterStages (env : PhotoEnv) (path : String) (s : PhotoData) : PhotoData :=
  if env.abort = some Stage.gps then fatalWrap s env.abortMsg else
  let lalo := extract_gps_data (builderTags env) (builderExiftool env) env.mdls path
  let s := { s with latitude := lalo.1, longitude := lalo.2 }
  if env.abort = some Stage.orient then fatalWrap s env.abortMsg else
  let s := { s with orientation :=
    extract_orientation_data (builderTags env) (builderExiftool env) env.mdls }
  if env.abort = some Stage.fallback then fatalWrap s env.abortMsg else
  if s.caption = none then { s with caption := some (fallbackCaption s.filename) }
  else s

/-- `extract_metadata_from_photo(photo_path)` (lines 375-443) against the
external-world outcomes `env`.  Each `if env.abort = some _` test models an
unexpected exception raised inside the corresponding stage of the `try`
block; the `KeyError` `extract_caption` can raise is modelled directly.
Every exception transfers control to `fatalWrap` with the state computed so
far, mirroring the `try/except` structure of the source. -/
def extract_metadata_from_photo (env : PhotoEnv) (path : String) : PhotoData :=
  let s := initPhotoData path
  if env.abort = some Stage.heic then fatalWrap s env.abortMsg else
  let s := heicStage env path s
  if env.abort = some Stage.dims then fatalWrap s env.abortMsg else
  let s := dimsStage env s
  if env.abort = some Stage.adapters then fatalWrap s env.abortMsg else
  -- adapter gathering (lines 405-412) computes `builderTags`/`builderExiftool`
  if env.abort = some Stage.caption then fatalWrap s env.abortMsg else
  match extract_caption s.filename (builderTags env) (builderExiftool env)
      env.mdls env.aae with
  | .error k => fatalWrap s ("'" ++ k ++ "'")  -- str(KeyError(k))
  | .ok c => laterStages env path { s with caption := c }

/-! ### `extract_metadata_from_photos` (Batch Pipeline) -/

/-- `extract_metadata_from_photos(photo_paths)` (lines 445-453): process
each path in order, appending one record per path.  `envOf` supplies the
external world each photo's processing observes. -/
def extract_metadata_from_photos (envOf : String → PhotoEnv)
    (paths : List String) : List PhotoData :=
  paths.map (fun p => extract_metadata_from_photo (envOf p) p)

/-! ### Auxiliary definitions used by the theorems -/

/-- A path is tracked for deletion by some record's `temp_file` field (and
is non-empty, matching the truthiness test in `cleanup_temp_files`). -/
def trackedTemp (l : List PhotoData) (p : String) : Bool :=
  decide (p ≠ "") && l.any (fun r => r.temp_file == some p)

/-- An environment in which every external call fails or yields nothing:
no HEIC support, no readable file, no ExifTool, no `mdls`, no sidecar, no
`exifread` tags, no injected exception. -/
def emptyEnv : PhotoEnv :=
  { heicSupport := false, heic := HeicOutcome.err none "", procExists := false,
    openDims := Except.error "", exiftoolJson := none, mdls := none,
    aae := none, tags := none, abort := none, abortMsg := "" }

/-- Environment whose ExifTool adapter returns a description key differing
in letter case from the spelling `extract_caption` indexes with. -/
def caseMismatchEnv : PhotoEnv :=
  { emptyEnv with
    exiftoolJson := some [("ifd0:imagedescription", PyVal.pstr "Valley site")] }

/-- Environment whose ExifTool adapter supplies reference-free composite
GPS coordinates with an out-of-range latitude. -/
def badLatitudeEnv : PhotoEnv :=
  { emptyEnv with
    exiftoolJson := some [("Composite:GPSLatitude", PyVal.pnum 100),
                          ("Composite:GPSLongitude", PyVal.pnum 50)] }

/-- Environment whose ExifTool adapter supplies a compass direction of
exactly 360 degrees. -/
def heading360Env : PhotoEnv :=
  { emptyEnv with
    exiftoolJson := some [("Composite:GPSImgDirection", PyVal.pnum 360)] }

/-- Environment used to witness the builder's exception handling: a
caption is resolvable, and an unexpected exception is injected at the GPS
stage. -/
def abortGpsEnv : PhotoEnv :=
  { emptyEnv with
    exiftoolJson := some [("IFD0:ImageDescription", PyVal.pstr "Cap")],
    abort := some Stage.gps, abortMsg := "boom" }

/-! ## Helper lemmas -/

/-- Pointwise effect of one `cleanup_temp_files` loop iteration. -/
lemma cleanupStep_point (fs : FileSys) (r : PhotoData) (p : String) :
    cleanupStep fs r p =
      (fs p && !(decide (p ≠ "") && (r.temp_file == some p))) := by
  rcases hr : r.temp_file with _ | t
  · simp [cleanupStep, hr]
  · simp only [cleanupStep, hr]
    by_cases ht : t ≠ "" ∧ fs t = true
    · rw [if_pos ht]
      by_cases hp : p = t
      · subst hp
        simp [fsUnlink, ht.1, ht.2]
      · simp [fsUnlink, hp, Ne.symm hp]
    · rw [if_neg ht]
      by_cases hp : p = t
      · subst hp
        by_cases hp0 : p = ""
        · simp [hp0]
        · have : fs p = false := by
            rcases Bool.eq_false_or_eq_true (fs p) with h | h
            · exact absurd ⟨hp0, h⟩ ht
            · exact h
          simp [this]
      · have hne : (some t == some p) = false := by
          simp [Ne.symm hp]
        simp [hne]

/-- Pointwise characterisation of `cleanup_temp_files`: a path survives
iff it existed and is not a (non-empty) tracked temp path. -/
lemma cleanup_point (l : List PhotoData) :
    ∀ (fs : FileSys) (p : String),
      cleanup_temp_files l fs p = (fs p && !trackedTemp l p) := by
  induction l with
  | nil => intro fs p; simp [cleanup_temp_files, trackedTemp]
  | cons r t ih =>
    intro fs p
    have h1 : cleanup_temp_files (r :: t) fs = cleanup_temp_files t (cleanupStep fs r) := by
      simp [cleanup_temp_files]
    rw [h1, ih (cleanupStep fs r) p, cleanupStep_point fs r p]
    simp only [trackedTemp, List.any_cons]
    generalize fs p = a
    generalize decide (p ≠ "") = d
    generalize (r.temp_file == some p) = b
    generalize t.any (fun r => r.temp_file == some p) = c
    cases a <;> cases d <;> cases b <;> cases c <;> rfl

/-! ## Claim C9 -/

/-- Claim C9: calling `cleanup_temp_files` a second time immediately after
a first call raises no error (the function is total on the filesystem
model, which reflects the source's existence check before `os.unlink` and
its exception guard) and leaves the filesystem unchanged: cleanup is
idempotent, tolerating temp paths already missing on disk. -/
theorem cleanup_idempotent (l : List PhotoData) (fs : FileSys) :
    cleanup_temp_files l (cleanup_temp_files l fs) = cleanup_temp_files l fs := by
  funext p
  rw [cleanup_point, cleanup_point]
  cases fs p <;> cases trackedTemp l p <;> rfl

/-! ## Claim C10 -/

/-- Claim C10: the mapping returned by the ExifTool adapter contains no
entry whose value is a string equal, case-insensitively, to `"null"`,
`"none"`, or the empty string; in particular an embedded description that
is literally `"None"` is dropped entirely, so every resolver sees no value
for that field from this source. -/
theorem exiftool_clean_no_placeholder :
    (∀ (m : ExifMap) (kv : String × PyVal), kv ∈ cleanExiftoolJson m →
      ∀ s, kv.2 = PyVal.pstr s →
        s.toLower ≠ "null" ∧ s.toLower ≠ "none" ∧ s ≠ "") ∧
    (∀ k : String, cleanExiftoolJson [(k, PyVal.pstr "None")] = []) := by
  constructor
  · intro m kv hmem s hs
    have h := List.of_mem_filter hmem
    rw [hs] at h
    simp only [isBadStr, Bool.not_eq_true', Bool.or_eq_false_iff,
      decide_eq_false_iff_not] at h
    refine ⟨h.1.1, h.2, ?_⟩
    intro h0
    exact h.1.2 (by rw [h0]; with_unfolding_all decide)
  · intro k
    have hbad : isBadStr (PyVal.pstr "None") = true := by with_unfolding_all decide
    simp [cleanExiftoolJson, hbad]

/-- Witness for C10 at a concrete mapping: the entry
`("XMP:Description", "hello")` survives cleaning and its value is none of
the placeholder strings, and a literal `"None"` description is dropped. -/
theorem exiftool_clean_no_placeholder_witness :
    ("hello".toLower ≠ "null" ∧ "hello".toLower ≠ "none" ∧ "hello" ≠ "") ∧
    cleanExiftoolJson [("EXIF:ImageDescription", PyVal.pstr "None")] = [] :=
  ⟨exiftool_clean_no_placeholder.1
      [("XMP:Description", PyVal.pstr "hello")]
      ("XMP:Description", PyVal.pstr "hello")
      (by
        simp only [cleanExiftoolJson]
        exact List.mem_filter.mpr ⟨by simp, by with_unfolding_all decide⟩)
      "hello" rfl,
   exiftool_clean_no_placeholder.2 "EXIF:ImageDescription"⟩

-- The resolver and helper functions are opaque to elaboration-time
-- reduction from here on (proofs that evaluate them use `unfold`, `simp`
-- with the definition, or kernel-level reduction, none of which is
-- affected); this keeps case analyses on the builder cheap.
attribute [irreducible] extract_caption extract_gps_data
  extract_orientation_data fallbackCaption pyBasename builderExiftool
  builderTags cleanExiftoolJson

/-- `heicStage` never touches the `path` field. -/
lemma heicStage_path (env : PhotoEnv) (path : String) (s : PhotoData) :
    (heicStage env path s).path = s.path := by
  simp only [heicStage]; repeat' split
  all_goals rfl

/-- `heicStage` never touches the `filename` field. -/
lemma heicStage_filename (env : PhotoEnv) (path : String) (s : PhotoData) :
    (heicStage env path s).filename = s.filename := by
  simp only [heicStage]; repeat' split
  all_goals rfl

/-- `heicStage` never touches the `caption` field. -/
lemma heicStage_caption (env : PhotoEnv) (path : String) (s : PhotoData) :
    (heicStage env path s).caption = s.caption := by
  simp only [heicStage]; repeat' split
  all_goals rfl

/-- `dimsStage` never touches the `path` field. -/
lemma dimsStage_path (env : PhotoEnv) (s : PhotoData) :
    (dimsStage env s).path = s.path := by
  simp only [dimsStage]; repeat' split
  all_goals rfl

/-- `dimsStage` never touches the `filename` field. -/
lemma dimsStage_filename (env : PhotoEnv) (s : PhotoData) :
    (dimsStage env s).filename = s.filename := by
  simp only [dimsStage]; repeat' split
  all_goals rfl

/-- `dimsStage` never touches the `caption` field. -/
lemma dimsStage_caption (env : PhotoEnv) (s : PhotoData) :
    (dimsStage env s).caption = s.caption := by
  simp only [dimsStage]; repeat' split
  all_goals rfl

/-- `laterStages` never touches the `path` field. -/
lemma laterStages_path (env : PhotoEnv) (path : String) (s : PhotoData) :
    (laterStages env path s).path = s.path := by
  simp only [laterStages]; repeat' split
  all_goals rfl

/-- `laterStages` never touches the `filename` field. -/
lemma laterStages_filename (env : PhotoEnv) (path : String) (s : PhotoData) :
    (laterStages env path s).filename = s.filename := by
  simp only [laterStages]; repeat' split
  all_goals rfl

/-- The record builder never touches the `path` and `filename` fields set
before the `try` block: they survive every branch, including every
exception path. -/
lemma extract_photo_path_eq (env : PhotoEnv) (path : String) :
    (extract_metadata_from_photo env path).path = path ∧
    (extract_metadata_from_photo env path).filename = pyBasename path := by
  unfold extract_metadata_from_photo
  repeat' split
  all_goals
    rcases hcap : extract_caption (pyBasename path) (builderTags env)
        (builderExiftool env) env.mdls env.aae with k | c <;>
      simp only [hcap, fatalWrap, initPhotoData, heicStage_path,
        heicStage_filename, dimsStage_path, dimsStage_filename,
        laterStages_path, laterStages_filename] <;>
      refine ⟨?_, ?_⟩ <;> first | rfl | trivial

/-- `heicStage` never touches the GPS/orientation fields. -/
lemma heicStage_gps (env : PhotoEnv) (path : String) (s : PhotoData) :
    (heicStage env path s).latitude = s.latitude ∧
    (heicStage env path s).longitude = s.longitude ∧
    (heicStage env path s).orientation = s.orientation := by
  unfold heicStage
  repeat' split
  all_goals exact ⟨rfl, rfl, rfl⟩

/-- `dimsStage` never touches the GPS/orientation fields. -/
lemma dimsStage_gps (env : PhotoEnv) (s : PhotoData) :
    (dimsStage env s).latitude = s.latitude ∧
    (dimsStage env s).longitude = s.longitude ∧
    (dimsStage env s).orientation = s.orientation := by
  unfold dimsStage
  repeat' split
  all_goals exact ⟨rfl, rfl, rfl⟩

/-- `laterStages` under an exception injected at the GPS stage: the whole
record so far is frozen and only `error` is overwritten. -/
lemma laterStages_abort_gps (env : PhotoEnv) (path : String) (s : PhotoData)
    (h : env.abort = some Stage.gps) :
    laterStages env path s = fatalWrap s env.abortMsg := by
  unfold laterStages
  rw [if_pos h]

/-- `laterStages` ends in the fatal handler whenever an exception is
injected at the GPS, orientation or fallback stage. -/
lemma laterStages_error (env : PhotoEnv) (path : String) (s : PhotoData)
    (h : env.abort = some Stage.gps ∨ env.abort = some Stage.orient ∨
      env.abort = some Stage.fallback) :
    ∃ m, (laterStages env path s).error
      = some ("Fatal processing error: " ++ m) := by
  refine ⟨env.abortMsg, ?_⟩
  unfold laterStages
  rcases h with h | h | h <;> simp [h, fatalWrap]

/-! ## Claim C1 -/

/-- Claim C1: the batch pipeline returns one record per input path, in the
same order — the output has the same length as the input and the i-th
record carries exactly the i-th input path (expressed as: mapping
`path` over the output recovers the input list), even for paths whose
processing fails entirely (the builder is total and the abort-injection
and `KeyError` paths are covered by the universally quantified
environment). -/
theorem batch_order_preserved (envOf : String → PhotoEnv)
    (paths : List String) :
    (extract_metadata_from_photos envOf paths).length = paths.length ∧
    (extract_metadata_from_photos envOf paths).map PhotoData.path = paths := by
  have hpath : ∀ p, (extract_metadata_from_photo (envOf p) p).path = p :=
    fun p => (extract_photo_path_eq (envOf p) p).1
  constructor
  · simp [extract_metadata_from_photos]
  · induction paths with
    | nil => rfl
    | cons p t ih =>
      simpa [extract_metadata_from_photos, hpath p] using ih

/-! ## Claim C7 -/

/-- Claim C7: an exception raised inside any stage of the Photo Record
Builder (injected via `env.abort`, or the `KeyError` that caption
resolution itself can raise) is caught at the builder boundary: the record
is still returned, with its path and filename intact and the exception
text recorded in `processing_error`; moreover the fields computed before
the failing stage are preserved — witnessed here for an exception at the
GPS stage, which keeps the already-resolved caption and leaves the
GPS/orientation fields unset.  Since the builder is total, no single
photo's failure can abort the batch (claim C1 covers the batch shape). -/
theorem builder_exception_containment (env : PhotoEnv) (path : String)
    (h : env.abort.isSome = true) :
    ((extract_metadata_from_photo env path).path = path ∧
     (extract_metadata_from_photo env path).filename = pyBasename path ∧
     ∃ m, (extract_metadata_from_photo env path).error
        = some ("Fatal processing error: " ++ m)) ∧
    (env.abort = some Stage.gps →
      ∀ c, extract_caption (pyBasename path) (builderTags env)
          (builderExiftool env) env.mdls env.aae = Except.ok c →
        (extract_metadata_from_photo env path).caption = c ∧
        (extract_metadata_from_photo env path).latitude = none ∧
        (extract_metadata_from_photo env path).longitude = none ∧
        (extract_metadata_from_photo env path).orientation = none) := by
  obtain ⟨st, hst⟩ := Option.isSome_iff_exists.mp h
  constructor
  · refine ⟨(extract_photo_path_eq env path).1,
      (extract_photo_path_eq env path).2, ?_⟩
    unfold extract_metadata_from_photo
    by_cases h1 : env.abort = some Stage.heic
    · simp [h1, fatalWrap]
    by_cases h2 : env.abort = some Stage.dims
    · simp [h1, h2, fatalWrap]
    by_cases h3 : env.abort = some Stage.adapters
    · simp [h1, h2, h3, fatalWrap]
    by_cases h4 : env.abort = some Stage.caption
    · simp [h1, h2, h3, h4, fatalWrap]
    rcases hcap : extract_caption (pyBasename path) (builderTags env)
        (builderExiftool env) env.mdls env.aae with k | c
    · simp only [if_neg h1, if_neg h2, if_neg h3, if_neg h4,
        dimsStage_filename, heicStage_filename, initPhotoData, hcap]
      exact ⟨"'" ++ k ++ "'", rfl⟩
    · simp only [if_neg h1, if_neg h2, if_neg h3, if_neg h4,
        dimsStage_filename, heicStage_filename, initPhotoData, hcap]
      apply laterStages_error
      cases st
      · exact absurd hst h1
      · exact absurd hst h2
      · exact absurd hst h3
      · exact absurd hst h4
      · exact Or.inl hst
      · exact Or.inr (Or.inl hst)
      · exact Or.inr (Or.inr hst)
  · intro hgps c hcap
    unfold extract_metadata_from_photo
    have h1 : ¬env.abort = some Stage.heic := by rw [hgps]; simp
    have h2 : ¬env.abort = some Stage.dims := by rw [hgps]; simp
    have h3 : ¬env.abort = some Stage.adapters := by rw [hgps]; simp
    have h4 : ¬env.abort = some Stage.caption := by rw [hgps]; simp
    simp only [if_neg h1, if_neg h2, if_neg h3, if_neg h4,
      dimsStage_filename, heicStage_filename, initPhotoData, hcap]
    rw [laterStages_abort_gps env path _ hgps]
    refine ⟨rfl, ?_, ?_, ?_⟩ <;>
      simp [fatalWrap, dimsStage_gps, heicStage_gps, initPhotoData]

/-- Witness for C7: a concrete environment aborting at the GPS stage with
a resolvable caption — the returned record keeps the caption, has the
fatal error recorded, and preserves the input path. -/
theorem builder_exception_containment_witness :
    (extract_metadata_from_photo abortGpsEnv "p.jpg").path = "p.jpg" ∧
    (∃ m, (extract_metadata_from_photo abortGpsEnv "p.jpg").error
      = some ("Fatal processing error: " ++ m)) ∧
    (extract_metadata_from_photo abortGpsEnv "p.jpg").caption = some "Cap" ∧
    (extract_metadata_from_photo abortGpsEnv "p.jpg").latitude = none := by
  have h := builder_exception_containment abortGpsEnv "p.jpg"
    (by with_unfolding_all decide)
  have hcap : extract_caption (pyBasename "p.jpg") (builderTags abortGpsEnv)
      (builderExiftool abortGpsEnv) abortGpsEnv.mdls abortGpsEnv.aae
      = Except.ok (some "Cap") := by with_unfolding_all rfl
  have hb := h.2 (by with_unfolding_all decide) (some "Cap") hcap
  exact ⟨h.1.1, h.1.2.2, hb.1, hb.2.1⟩

/-! ## Claim C3 -/

/-- Claim C3: GPS resolution is all-or-nothing and single-source — for
every metadata bundle the result is either both components absent, or a
pair of present components that was produced in full by exactly one
source block (the ExifTool block, the `mdls` block, or the `exifread`
block); never one present and the other absent, and never a mix of
components from different sources. -/
theorem gps_all_or_nothing (tags : Option TagMap) (exiftool : ExifMap)
    (mdls : Option MdlsMap) (fp : String) :
    extract_gps_data tags exiftool mdls fp = (none, none) ∨
    ∃ la lo, extract_gps_data tags exiftool mdls fp = (some la, some lo) ∧
      (gpsFromExiftool exiftool = some (la, lo) ∨
       (∃ m, mdls = some m ∧ gpsFromMdls m = some (la, lo)) ∨
       (∃ ts, tags = some ts ∧ gpsFromTags ts = some (la, lo))) := by
  unfold extract_gps_data
  rcases h1 : (if exiftool ≠ [] then gpsFromExiftool exiftool else none)
    with _ | ⟨la, lo⟩
  · rcases h2 : (match mdls with
        | some m => if m ≠ [] then gpsFromMdls m else none
        | none => none) with _ | ⟨la, lo⟩
    · rcases h3 : (match tags with
          | some ts => if ts ≠ [] then gpsFromTags ts else none
          | none => none) with _ | ⟨la, lo⟩
      · simp only [h1, h2, h3]
        exact Or.inl trivial
      · simp only [h1, h2, h3]
        refine Or.inr ⟨la, lo, rfl, Or.inr (Or.inr ?_)⟩
        rcases tags with _ | ts
        · exact absurd h3 (by simp)
        · refine ⟨ts, rfl, ?_⟩
          change (if ts ≠ [] then gpsFromTags ts else none) = some (la, lo) at h3
          by_cases ht : ts ≠ []
          · rwa [if_pos ht] at h3
          · rw [if_neg ht] at h3
            exact absurd h3 (by simp)
    · simp only [h1, h2]
      refine Or.inr ⟨la, lo, rfl, Or.inr (Or.inl ?_)⟩
      rcases mdls with _ | m
      · exact absurd h2 (by simp)
      · refine ⟨m, rfl, ?_⟩
        change (if m ≠ [] then gpsFromMdls m else none) = some (la, lo) at h2
        by_cases hm : m ≠ []
        · rwa [if_pos hm] at h2
        · rw [if_neg hm] at h2
          exact absurd h2 (by simp)
  · simp only [h1]
    refine Or.inr ⟨la, lo, rfl, Or.inl ?_⟩
    by_cases he : exiftool ≠ []
    · rwa [if_pos he] at h1
    · rw [if_neg he] at h1
      exact absurd h1 (by simp)

/-! ## Claim C4 -/

/-- Counterexample to claim C4: a source that supplies coordinates without
a reference letter can place an out-of-range latitude in the record — with
`Composite:GPSLatitude = 100` and `Composite:GPSLongitude = 50` the
pipeline's record carries latitude 100, outside `[-90, 90]`. -/
theorem gps_range_counterexample :
    (extract_metadata_from_photo badLatitudeEnv "a.jpg").latitude = some 100 ∧
    (extract_metadata_from_photo badLatitudeEnv "a.jpg").longitude = some 50 ∧
    ¬((100 : ℚ) ≤ 90) := by
  with_unfolding_all decide

/-- The range discipline `convert_gps_to_decimal` actually enforces: a
result produced under an `N`/`S` raw reference is a valid latitude, and
one produced under an `E`/`W` raw reference is a valid longitude. -/
lemma convert_gps_range (coords : PyVal) (r : Option PyVal) (v : ℚ)
    (h : convert_gps_to_decimal coords r = some v) :
    (refRawIn r ["N", "S"] = true → -90 ≤ v ∧ v ≤ 90) ∧
    (refRawIn r ["E", "W"] = true → -180 ≤ v ∧ v ≤ 180) := by
  unfold convert_gps_to_decimal at h
  dsimp only at h
  repeat' split at h
  all_goals
    first
    | (rw [Option.some.injEq] at h
       subst h
       rename_i hA hB
       constructor
       · intro hlat
         exact not_not.mp (not_and.mp hA (by simp [hlat]))
       · intro hlon
         exact not_not.mp (not_and.mp hB (by simp [hlon])))
    | exact absurd h (by simp)

/-- Claim C4, amended: the latitude/longitude range invariant holds on the
range-checked paths — the OS-query (`mdls`) source checks both ranges
explicitly, and any conversion given an `N`/`S` (resp. `E`/`W`) reference
letter yields only in-range latitudes (longitudes) — but not for sources
that supply coordinates without a reference letter, which can store
out-of-range values (see the counterexample). -/
theorem gps_range_amended :
    (∀ (m : MdlsMap) (la lo : ℚ), gpsFromMdls m = some (la, lo) →
      (-90 ≤ la ∧ la ≤ 90) ∧ (-180 ≤ lo ∧ lo ≤ 180)) ∧
    (∀ (coords : PyVal) (s : String) (v : ℚ), (s = "N" ∨ s = "S") →
      convert_gps_to_decimal coords (some (PyVal.pstr s)) = some v →
      -90 ≤ v ∧ v ≤ 90) ∧
    (∀ (coords : PyVal) (s : String) (v : ℚ), (s = "E" ∨ s = "W") →
      convert_gps_to_decimal coords (some (PyVal.pstr s)) = some v →
      -180 ≤ v ∧ v ≤ 180) := by
  refine ⟨?_, ?_, ?_⟩
  · intro m la lo h
    unfold gpsFromMdls at h
    repeat' split at h
    all_goals simp_all
  · intro coords s v hs h
    refine (convert_gps_range coords (some (PyVal.pstr s)) v h).1 ?_
    rcases hs with h' | h' <;> subst h' <;> decide
  · intro coords s v hs h
    refine (convert_gps_range coords (some (PyVal.pstr s)) v h).2 ?_
    rcases hs with h' | h' <;> subst h' <;> decide

/-- Witness for C4's amended theorem at concrete inputs: an `mdls` pair
`("10", "20")` and conversions of `50` with reference `N` and `60` with
reference `W`. -/
theorem gps_range_amended_witness :
    (((-90 : ℚ) ≤ 10 ∧ (10 : ℚ) ≤ 90) ∧ ((-180 : ℚ) ≤ 20 ∧ (20 : ℚ) ≤ 180)) ∧
    ((-90 : ℚ) ≤ 50 ∧ (50 : ℚ) ≤ 90) ∧
    ((-180 : ℚ) ≤ -60 ∧ (-60 : ℚ) ≤ 180) := by
  have h1 := gps_range_amended.1
    [("kMDItemLatitude", "10"), ("kMDItemLongitude", "20")] 10 20
    (by with_unfolding_all rfl)
  have h2 := gps_range_amended.2.1 (PyVal.pnum 50) "N" 50 (Or.inl rfl)
    (by with_unfolding_all rfl)
  have h3 := gps_range_amended.2.2 (PyVal.pnum 60) "W" (-60) (Or.inr rfl)
    (by with_unfolding_all rfl)
  exact ⟨h1, h2, h3⟩

/-! ## Claim C5 -/

/-- Every value the ExifTool orientation loop accepts lies in `[0, 360]`
(out-of-range candidates are reset and the loop moves on). -/
lemma orientLoop_range (fields : List String) (m : ExifMap) (v : ℚ)
    (h : orientLoop fields m = some v) : 0 ≤ v ∧ v ≤ 360 := by
  induction fields with
  | nil => exact absurd h (by simp [orientLoop])
  | cons f rest ih =>
    unfold orientLoop at h
    repeat' split at h
    all_goals
      first
      | (rw [Option.some.injEq] at h; subst h; assumption)
      | exact ih h

/-- Every value the `exifread` orientation loop accepts lies in
`[0, 360]`. -/
lemma tagOrientLoop_range (fields : List String) (ts : TagMap) (v : ℚ)
    (h : tagOrientLoop fields ts = some v) : 0 ≤ v ∧ v ≤ 360 := by
  induction fields with
  | nil => exact absurd h (by simp [tagOrientLoop])
  | cons f rest ih =>
    unfold tagOrientLoop at h
    repeat' split at h
    all_goals
      first
      | (rw [Option.some.injEq] at h; subst h; assumption)
      | exact ih h

/-- Counterexample to claim C5: a raw heading candidate of exactly 360 is
accepted and stored in the record as 360 — it is not normalized to 0, and
360 does not lie in `[0, 360)`. -/
theorem heading_360_counterexample :
    (extract_metadata_from_photo heading360Env "a.jpg").orientation
      = some 360 ∧
    ((360 : ℚ) ≠ 0) ∧ ¬((360 : ℚ) < 360) := by
  with_unfolding_all decide

/-- Claim C5, amended: heading resolution rejects any candidate outside
`[0, 360]` (e.g. 370) and moves on to the next candidate, and any heading
it stores lies in the closed interval `[0, 360]` — the boundary value 360
is accepted as-is, not normalized to 0 (see the counterexample). -/
theorem heading_range_amended :
    (∀ (tags : Option TagMap) (exiftool : ExifMap) (mdls : Option MdlsMap),
      extract_orientation_data tags exiftool mdls = none ∨
      ∃ v, extract_orientation_data tags exiftool mdls = some v ∧
        0 ≤ v ∧ v ≤ 360) ∧
    extract_orientation_data none
      [("Composite:GPSImgDirection", PyVal.pnum 370),
       ("EXIF:GPSImgDirection", PyVal.pnum 10)] none = some 10 := by
  constructor
  · intro tags exiftool mdls
    rcases hres : extract_orientation_data tags exiftool mdls with _ | v
    · exact Or.inl rfl
    · refine Or.inr ⟨v, rfl, ?_⟩
      unfold extract_orientation_data at hres
      rcases h1 : (if exiftool ≠ [] then orientLoop orientationFields exiftool
          else none) with _ | w
      · rw [h1] at hres
        rcases tags with _ | ts
        · exact absurd hres (by simp)
        · simp only [] at hres
          by_cases ht : ts ≠ []
          · rw [if_pos ht] at hres
            exact tagOrientLoop_range orientationTags ts v hres
          · rw [if_neg ht] at hres
            exact absurd hres (by simp)
      · rw [h1] at hres
        rw [Option.some.injEq] at hres
        subst hres
        by_cases he : exiftool ≠ []
        · rw [if_pos he] at h1
          exact orientLoop_range orientationFields exiftool w h1
        · rw [if_neg he] at h1
          exact absurd h1 (by simp)
  · with_unfolding_all decide

/-! ## Claim C6 -/

/-- Counterexample to claim C6: a base name encoding `YYYYMMDD` with *no*
time part does not get a synthesized `"Photo from ..."` caption — the
date/time regex requires all six time digits — so `IMG_20230401.jpg`
falls back to the cleaned filename `"20230401"` verbatim. -/
theorem fallback_date_only_counterexample :
    (extract_metadata_from_photo emptyEnv "IMG_20230401.jpg").caption
      = some "20230401" ∧
    ("20230401".take 10) ≠ "Photo from" := by
  constructor
  · with_unfolding_all rfl
  · with_unfolding_all decide

/-- Claim C6, amended: with no resolvable metadata caption, a base name
encoding `YYYYMMDD` *followed by* `HHMMSS` (optional underscore/hyphen/
whitespace separators; the time part is required, not optional) yields the
fixed caption `"Photo from YYYY-MM-DD HH:MM"` — in particular
`IMG_20230401_143000.heic` yields `"Photo from 2023-04-01 14:30"` — while
any other base name is stripped of known camera prefixes and separator
runs and used verbatim. -/
theorem fallback_caption_amended :
    (extract_metadata_from_photo emptyEnv "IMG_20230401_143000.heic").caption
      = some "Photo from 2023-04-01 14:30" ∧
    fallbackCaption "IMG_20230401_143000.heic" = "Photo from 2023-04-01 14:30" ∧
    fallbackCaption "IMG_20230401.jpg" = "20230401" ∧
    fallbackCaption "DSC-0042.jpg" = "0042" := by
  refine ⟨?_, ?_, ?_, ?_⟩ <;> with_unfolding_all rfl

/-! ## Claim C2 -/

/-- Claim C2 (code bug evaluation): when the ExifTool adapter returns a
description key that matches a primary field only case-insensitively
(here `ifd0:imagedescription`), `extract_caption`'s membership test
`field.lower() in map(str.lower, md.keys())` succeeds but the subsequent
exact-key access `md[field]` raises `KeyError`; the builder's boundary
handler catches it *before* the fallback-caption stage runs, so the final
record carries `caption = None` — contradicting the specified invariant
that the caption is never null. -/
theorem caption_none_on_case_mismatch :
    (extract_metadata_from_photo caseMismatchEnv "site.jpg").caption = none ∧
    (extract_metadata_from_photo caseMismatchEnv "site.jpg").error
      = some "Fatal processing error: 'IFD0:ImageDescription'" := by
  constructor <;> with_unfolding_all rfl

/-! ## Claim C8 -/

/-- Counterexample to claim C8: for the tier-2 `EXIF:UserComment` value
`"Hello\x00\x00"` the last non-empty null-separated segment is `"Hello"`,
but caption resolution yields *no* caption from this bundle (the code only
inspects the last and second-to-last segments, both empty here). -/
theorem usercomment_counterexample :
    extract_caption "f.jpg" none
      [("EXIF:UserComment", PyVal.pstr "Hello\x00\x00")] none none
      = Except.ok none ∧
    ((("Hello\x00\x00".splitOn "\x00").filter (fun t => t.trim ≠ "")).getLast?
      = some "Hello") := by
  constructor
  · with_unfolding_all rfl
  · with_unfolding_all decide

/-- Claim C8, amended: the UserComment null-separator handling selects the
*final* segment when it is non-empty after stripping (in which case it is
indeed the last non-empty segment); when the final segment strips to
empty, only the second-to-last segment is consulted, and if that is also
empty the field yields nothing even if an earlier segment is non-empty.
The concrete conjuncts show the wiring through `extract_caption`: a
non-empty last segment is selected, and a value ending in an empty segment
falls back to the second-to-last segment. -/
theorem usercomment_amended (s : String)
    (h2 : (((s.splitOn "\x00").getLastD "").trim) ≠ "") :
    userCommentValue s = (((s.splitOn "\x00").getLastD "").trim) ∧
    extract_caption "f.jpg" none [("EXIF:UserComment", PyVal.pstr "A\x00B")]
      none none = Except.ok (some "B") ∧
    extract_caption "f.jpg" none [("EXIF:UserComment", PyVal.pstr "x\x00y\x00 ")]
      none none = Except.ok (some "y") := by
  refine ⟨?_, by with_unfolding_all rfl, by with_unfolding_all rfl⟩
  unfold userCommentValue
  rw [if_pos h2]

/-- Witness for C8's amended theorem at the concrete UserComment value
`"A\x00\x00B"`, whose final segment is `"B"`. -/
theorem usercomment_amended_witness :
    userCommentValue "A\x00\x00B"
      = ((("A\x00\x00B".splitOn "\x00").getLastD "").trim) ∧
    extract_caption "f.jpg" none [("EXIF:UserComment", PyVal.pstr "A\x00B")]
      none none = Except.ok (some "B") :=
  ⟨(usercomment_amended "A\x00\x00B" (by with_unfolding_all decide)).1,
   (usercomment_amended "A\x00\x00B" (by with_unfolding_all decide)).2.1⟩
